import Mathlib

/-!
Shallow embedding of the PSP OS abstraction layer (psp_osal.c) of
pthread-embedded, together with theorems about its behaviour.

Modelling conventions:
- Kernel calls are modelled by their result values, supplied as inputs
  (per-iteration environments for the polling loops).
- SceUID / int kernel results are Int, with the PSP error constants taken as
  signed 32-bit values (0x8002xxxx codes are negative as signed ints).
- The state of a thread's cancellation semaphore is threaded explicitly as a
  Nat count where a claim is about that state; sceKernelReferSemaStatus is a
  read-only status query and never changes the count.
- The unbounded while(1) polling loops are modelled with explicit fuel; a
  loop that consumes all fuel without returning yields none.
-/

/-- Status codes of the OS abstraction layer (pte_generic_osal.h). -/
inductive pte_osResult where
  | PTE_OS_OK
  | PTE_OS_NO_RESOURCES
  | PTE_OS_GENERAL_FAILURE
  | PTE_OS_TIMEOUT
  | PTE_OS_INTERRUPTED
deriving DecidableEq

open pte_osResult

/-- Kernel success status (SCE_KERNEL_ERROR_OK = 0). -/
def SCE_KERNEL_ERROR_OK : Int := 0

/-- Kernel out-of-memory error 0x80020190, as a signed 32-bit value. -/
def SCE_KERNEL_ERROR_NO_MEMORY : Int := 0x80020190 - 2 ^ 32

/-- Kernel wait-timeout error 0x800201a8, as a signed 32-bit value. -/
def SCE_KERNEL_ERROR_WAIT_TIMEOUT : Int := 0x800201a8 - 2 ^ 32

/-- Kernel semaphore-overflow error 0x800201ad, as a signed 32-bit value. -/
def SCE_KERNEL_ERROR_SEMA_OVF : Int := 0x800201ad - 2 ^ 32

/-- State touched by the interrupt-masked atomics: the plain integer location
(*pdest) and the interrupt-enable flag.  pspSdkDisableInterrupts returns the
prior flag and clears it; pspSdkEnableInterrupts(intc) restores it. -/
structure MachineState where
  mem : Int
  interruptsOn : Bool
deriving DecidableEq

/-- pte_osAtomicCompareExchange(pdest, exchange, comp): disables interrupts,
reads origVal = *pdest, stores exchange into *pdest when *pdest == comp,
restores the prior interrupt state, returns origVal. -/
def pte_osAtomicCompareExchange (s : MachineState) (exchange comp : Int) :
    Int × MachineState :=
  let intc := s.interruptsOn
  let s1 : MachineState := { mem := s.mem, interruptsOn := false }
  let origVal := s1.mem
  let s2 : MachineState :=
    if s1.mem = comp then { mem := exchange, interruptsOn := s1.interruptsOn }
    else s1
  let s3 : MachineState := { mem := s2.mem, interruptsOn := intc }
  (origVal, s3)

/-- pte_osAtomicExchange(ptarg, val): disables interrupts, reads origVal,
stores val, restores interrupts, returns origVal. -/
def pte_osAtomicExchange (s : MachineState) (val : Int) : Int × MachineState :=
  let intc := s.interruptsOn
  let s1 : MachineState := { mem := s.mem, interruptsOn := false }
  let origVal := s1.mem
  let s2 : MachineState := { mem := val, interruptsOn := intc }
  (origVal, s2)

/-- sceKernelSignalSema on a semaphore with the given maximum count: adds
delta when the result fits, otherwise fails with SCE_KERNEL_ERROR_SEMA_OVF
leaving the count unchanged. -/
def sceKernelSignalSema (maxCount count delta : Nat) : Int × Nat :=
  if count + delta ≤ maxCount then (SCE_KERNEL_ERROR_OK, count + delta)
  else (SCE_KERNEL_ERROR_SEMA_OVF, count)

/-- pte_osThreadCancel: posts 1 to the target thread's cancellation semaphore
(created with maximum 255); PTE_OS_OK on kernel success, else
PTE_OS_GENERAL_FAILURE.  Returns the new semaphore count as well. -/
def pte_osThreadCancel (cancelCount : Nat) : pte_osResult × Nat :=
  match sceKernelSignalSema 255 cancelCount 1 with
  | (st, c) =>
    (if st = SCE_KERNEL_ERROR_OK then PTE_OS_OK else PTE_OS_GENERAL_FAILURE, c)

/-- pte_osThreadCheckCancel: looks up the thread's control data (tdPresent is
whether getThreadData returned non-NULL), then queries the cancellation
semaphore with sceKernelReferSemaStatus (referStatus is that kernel result; a
read-only query, so the count is passed through unchanged).  Positive count
reports PTE_OS_INTERRUPTED, zero PTE_OS_OK; a failed query or missing control
data reports PTE_OS_GENERAL_FAILURE. -/
def pte_osThreadCheckCancel (tdPresent : Bool) (referStatus : Int)
    (cancelCount : Nat) : pte_osResult × Nat :=
  if tdPresent then
    if referStatus = SCE_KERNEL_ERROR_OK then
      (if 0 < cancelCount then PTE_OS_INTERRUPTED else PTE_OS_OK, cancelCount)
    else (PTE_OS_GENERAL_FAILURE, cancelCount)
  else (PTE_OS_GENERAL_FAILURE, cancelCount)

/-- Outcome of one iteration of a polling loop body: return a status and leave
the loop, sleep POLLING_DELAY_IN_us and iterate again, or iterate again
without sleeping. -/
inductive PendStep where
  | ret (r : pte_osResult)
  | sleepRepeat
  | repeatNoSleep
deriving DecidableEq

/-- Kernel responses seen by one iteration of pte_osSemaphoreCancellablePend:
the result of the zero-timeout sceKernelWaitSema probe of the user semaphore,
the value of clock() - start_time (microseconds) at this iteration, and the
result of sceKernelReferSemaStatus on the cancellation semaphore. -/
structure PendIterEnv where
  semWaitStatus : Int
  elapsed : Nat
  referStatus : Int

/-- Kernel responses seen by one iteration of pte_osThreadWaitForEnd: whether
sceKernelReferThreadRunStatus reported info.status == PSP_THREAD_STOPPED, and
the result of sceKernelReferSemaStatus on the cancellation semaphore. -/
structure WaitIterEnv where
  threadStopped : Bool
  referStatus : Int

/-- One iteration of the while(1) loop of pte_osSemaphoreCancellablePend:
probe the user semaphore with a zero timeout (OK means acquired); else check
the timeout clock; else, when the calling thread's control data was found,
query the cancellation semaphore: positive count returns INTERRUPTED, a failed
query returns GENERAL_FAILURE, otherwise sleep and repeat; when the control
data is NULL the whole block is skipped and the loop repeats with no sleep.
The cancellation count is threaded through and never modified (the query is
sceKernelReferSemaStatus, not a wait). -/
def pte_osSemaphoreCancellablePendIter (tdPresent timeoutEnabled : Bool)
    (timeout : Nat) (env : PendIterEnv) (cancelCount : Nat) :
    PendStep × Nat :=
  if env.semWaitStatus = SCE_KERNEL_ERROR_OK then
    (PendStep.ret PTE_OS_OK, cancelCount)
  else if timeoutEnabled = true ∧ timeout < env.elapsed then
    (PendStep.ret PTE_OS_TIMEOUT, cancelCount)
  else if tdPresent then
    if env.referStatus = SCE_KERNEL_ERROR_OK then
      if 0 < cancelCount then (PendStep.ret PTE_OS_INTERRUPTED, cancelCount)
      else (PendStep.sleepRepeat, cancelCount)
    else (PendStep.ret PTE_OS_GENERAL_FAILURE, cancelCount)
  else (PendStep.repeatNoSleep, cancelCount)

/-- One iteration of the while(1) loop of pte_osThreadWaitForEnd: poll the
target thread's run status (stopped means PTE_OS_OK); otherwise the same
cancellation block as the cancellable pend, with no timeout clock. -/
def pte_osThreadWaitForEndIter (tdPresent : Bool) (env : WaitIterEnv)
    (cancelCount : Nat) : PendStep × Nat :=
  if env.threadStopped then (PendStep.ret PTE_OS_OK, cancelCount)
  else if tdPresent then
    if env.referStatus = SCE_KERNEL_ERROR_OK then
      if 0 < cancelCount then (PendStep.ret PTE_OS_INTERRUPTED, cancelCount)
      else (PendStep.sleepRepeat, cancelCount)
    else (PendStep.ret PTE_OS_GENERAL_FAILURE, cancelCount)
  else (PendStep.repeatNoSleep, cancelCount)

/-- Fuel-bounded run of the pte_osSemaphoreCancellablePend loop, iteration
index i selecting this iteration's kernel responses from envs.  none means the
loop had not returned after the given number of iterations. -/
def pte_osSemaphoreCancellablePendLoop (tdPresent timeoutEnabled : Bool)
    (timeout : Nat) (envs : Nat → PendIterEnv) (i fuel cancelCount : Nat) :
    Option pte_osResult × Nat :=
  match fuel with
  | 0 => (none, cancelCount)
  | Nat.succ f =>
    match pte_osSemaphoreCancellablePendIter tdPresent timeoutEnabled timeout
        (envs i) cancelCount with
    | (PendStep.ret r, c) => (some r, c)
    | (PendStep.sleepRepeat, c) =>
      pte_osSemaphoreCancellablePendLoop tdPresent timeoutEnabled timeout envs
        (i + 1) f c
    | (PendStep.repeatNoSleep, c) =>
      pte_osSemaphoreCancellablePendLoop tdPresent timeoutEnabled timeout envs
        (i + 1) f c

/-- Fuel-bounded run of the pte_osThreadWaitForEnd loop. -/
def pte_osThreadWaitForEndLoop (tdPresent : Bool) (envs : Nat → WaitIterEnv)
    (i fuel cancelCount : Nat) : Option pte_osResult × Nat :=
  match fuel with
  | 0 => (none, cancelCount)
  | Nat.succ f =>
    match pte_osThreadWaitForEndIter tdPresent (envs i) cancelCount with
    | (PendStep.ret r, c) => (some r, c)
    | (PendStep.sleepRepeat, c) =>
      pte_osThreadWaitForEndLoop tdPresent envs (i + 1) f c
    | (PendStep.repeatNoSleep, c) =>
      pte_osThreadWaitForEndLoop tdPresent envs (i + 1) f c

/-- pte_osSemaphoreCancellablePend(semHandle, pTimeout): tdPresent is whether
getThreadData(sceKernelGetThreadId()) found control data; pTimeout == NULL
disables the timeout, otherwise timeout = *pTimeout * 1000 as an unsigned int
(milliseconds converted to the microsecond clock unit). -/
def pte_osSemaphoreCancellablePend (tdPresent : Bool) (pTimeout : Option Nat)
    (envs : Nat → PendIterEnv) (fuel cancelCount : Nat) :
    Option pte_osResult × Nat :=
  let timeoutEnabled := pTimeout.isSome
  let timeout : Nat :=
    match pTimeout with
    | none => 0
    | some msecs => (msecs * 1000) % 2 ^ 32
  pte_osSemaphoreCancellablePendLoop tdPresent timeoutEnabled timeout envs 0
    fuel cancelCount

/-- pte_osThreadWaitForEnd(threadHandle), fuel-bounded. -/
def pte_osThreadWaitForEnd (tdPresent : Bool) (envs : Nat → WaitIterEnv)
    (fuel cancelCount : Nat) : Option pte_osResult × Nat :=
  pte_osThreadWaitForEndLoop tdPresent envs 0 fuel cancelCount

/-- pte_osMutexCreate: calls sceKernelCreateSema(name, 0, 1, 1, 0), stores
whatever the kernel returned (kernelSemHandle, possibly a negative error code)
into *pHandle, and returns PTE_OS_OK unconditionally: the kernel result is
never tested. -/
def pte_osMutexCreate (kernelSemHandle : Int) : pte_osResult × Int :=
  (PTE_OS_OK, kernelSemHandle)

/-- pte_osSemaphoreCreate: calls sceKernelCreateSema(name, 0, initialValue,
SEM_VALUE_MAX, 0), stores whatever the kernel returned into *pHandle, and
returns PTE_OS_OK unconditionally: the kernel result is never tested. -/
def pte_osSemaphoreCreate (kernelSemHandle : Int) : pte_osResult × Int :=
  (PTE_OS_OK, kernelSemHandle)

/-- pte_osMutexTimedLock: status = sceKernelWaitSema(handle, 1, &timeoutUsecs);
a negative status is assumed to be a timeout (PTE_OS_TIMEOUT), anything else
is PTE_OS_OK. -/
def pte_osMutexTimedLock (kernelWaitStatus : Int) : pte_osResult :=
  if kernelWaitStatus < 0 then PTE_OS_TIMEOUT else PTE_OS_OK

/-- pte_osSemaphorePend: result of sceKernelWaitSema mapped to OK on kernel
success, TIMEOUT on SCE_KERNEL_ERROR_WAIT_TIMEOUT, GENERAL_FAILURE otherwise. -/
def pte_osSemaphorePend (kernelWaitStatus : Int) : pte_osResult :=
  if kernelWaitStatus = SCE_KERNEL_ERROR_OK then PTE_OS_OK
  else if kernelWaitStatus = SCE_KERNEL_ERROR_WAIT_TIMEOUT then PTE_OS_TIMEOUT
  else PTE_OS_GENERAL_FAILURE

/-- Observable outcome of one pte_osThreadCreate call: the returned status,
the thread handle written through ppte_osThreadHandle (none when no handle is
produced), the clamped stack size passed to sceKernelCreateThread, and which
allocation / release calls were made during the call. -/
structure ThreadCreateOut where
  result : pte_osResult
  handle : Option Int
  kernelStackSize : Int
  tlsAllocated : Bool
  tlsDestroyed : Bool
  threadDataAllocated : Bool
  threadDataFreed : Bool
  cancelSemCreateCalled : Bool
  cancelSemDeleteCalled : Bool
deriving DecidableEq

/-- pte_osThreadCreate: clamps stackSize to DEFAULT_STACK_SIZE_BYTES (4096);
allocates the TLS table (tlsInitOk is whether pteTlsThreadInit returned
non-NULL), then the control block (mallocOk), creates the cancellation
semaphore (kernel result never tested), then creates the kernel thread
(threadId).  threadId == SCE_KERNEL_ERROR_NO_MEMORY frees the control block,
destroys the TLS table and returns PTE_OS_NO_RESOURCES; any other negative
threadId does the same frees and returns PTE_OS_GENERAL_FAILURE; otherwise the
handle is threadId and the result PTE_OS_OK.  The cancellation semaphore is
never deleted on any path of this function. -/
def pte_osThreadCreate (stackSize : Int) (tlsInitOk mallocOk : Bool)
    (threadId : Int) : ThreadCreateOut :=
  let stackSize2 := if stackSize < 4096 then (4096 : Int) else stackSize
  if tlsInitOk = false then
    { result := PTE_OS_NO_RESOURCES, handle := none,
      kernelStackSize := stackSize2,
      tlsAllocated := false, tlsDestroyed := false,
      threadDataAllocated := false, threadDataFreed := false,
      cancelSemCreateCalled := false, cancelSemDeleteCalled := false }
  else if mallocOk = false then
    { result := PTE_OS_NO_RESOURCES, handle := none,
      kernelStackSize := stackSize2,
      tlsAllocated := true, tlsDestroyed := true,
      threadDataAllocated := false, threadDataFreed := false,
      cancelSemCreateCalled := false, cancelSemDeleteCalled := false }
  else if threadId = SCE_KERNEL_ERROR_NO_MEMORY then
    { result := PTE_OS_NO_RESOURCES, handle := none,
      kernelStackSize := stackSize2,
      tlsAllocated := true, tlsDestroyed := true,
      threadDataAllocated := true, threadDataFreed := true,
      cancelSemCreateCalled := true, cancelSemDeleteCalled := false }
  else if threadId < 0 then
    { result := PTE_OS_GENERAL_FAILURE, handle := none,
      kernelStackSize := stackSize2,
      tlsAllocated := true, tlsDestroyed := true,
      threadDataAllocated := true, threadDataFreed := true,
      cancelSemCreateCalled := true, cancelSemDeleteCalled := false }
  else
    { result := PTE_OS_OK, handle := some threadId,
      kernelStackSize := stackSize2,
      tlsAllocated := true, tlsDestroyed := false,
      threadDataAllocated := true, threadDataFreed := false,
      cancelSemCreateCalled := true, cancelSemDeleteCalled := false }

/-- Observable outcome of pte_osInit: the returned status, whether globalTls
was assigned (the pteTlsThreadInit return value is stored without a NULL
check; globalTlsNull records that unchecked value), and the sceKernelCreateSema
result stored without a check into the control block (none when the call was
never reached). -/
structure InitOut where
  result : pte_osResult
  globalTlsAssigned : Bool
  globalTlsNull : Bool
  cancelSemStatusStored : Option Int
deriving DecidableEq

/-- pte_osInit: result = pteTlsGlobalInit(PSP_MAX_TLS); on PTE_OS_OK,
result = pteTlsAlloc(&threadDataKey); on PTE_OS_OK, globalTls =
pteTlsThreadInit() (return value never tested), then the control block is
malloc'd (NULL gives PTE_OS_NO_RESOURCES), a TLS value is set and the
cancellation semaphore created via sceKernelCreateSema (result stored, never
tested), and PTE_OS_OK is returned. -/
def pte_osInit (tlsGlobalInitResult tlsAllocResult : pte_osResult)
    (tlsThreadInitNull mallocOk : Bool) (cancelSemStatus : Int) : InitOut :=
  if tlsGlobalInitResult = PTE_OS_OK then
    if tlsAllocResult = PTE_OS_OK then
      if mallocOk then
        { result := PTE_OS_OK, globalTlsAssigned := true,
          globalTlsNull := tlsThreadInitNull,
          cancelSemStatusStored := some cancelSemStatus }
      else
        { result := PTE_OS_NO_RESOURCES, globalTlsAssigned := true,
          globalTlsNull := tlsThreadInitNull, cancelSemStatusStored := none }
    else
      { result := tlsAllocResult, globalTlsAssigned := false,
        globalTlsNull := false, cancelSemStatusStored := none }
  else
    { result := tlsGlobalInitResult, globalTlsAssigned := false,
      globalTlsNull := false, cancelSemStatusStored := none }

/-- C isspace character set, used by the whitespace skipping of scanf numeric
conversions. -/
def isSpaceC (c : Char) : Bool :=
  c = ' ' || c = '\t' || c = '\n' || c = '\x0b' || c = '\x0c' || c = '\r'

/-- Drop leading C whitespace. -/
def skipSpaces : List Char → List Char
  | [] => []
  | c :: cs => if isSpaceC c then skipSpaces cs else c :: cs

/-- Value of a decimal digit character, none for a non-digit. -/
def decVal (c : Char) : Option Nat :=
  if '0' ≤ c ∧ c ≤ '9' then some (c.toNat - '0'.toNat) else none

/-- Value of a hexadecimal digit character, none otherwise. -/
def hexVal (c : Char) : Option Nat :=
  if '0' ≤ c ∧ c ≤ '9' then some (c.toNat - '0'.toNat)
  else if 'a' ≤ c ∧ c ≤ 'f' then some (c.toNat - 'a'.toNat + 10)
  else if 'A' ≤ c ∧ c ≤ 'F' then some (c.toNat - 'A'.toNat + 10)
  else none

/-- Read at most width decimal digits, accumulating their value; stops at the
first non-digit or when the width is exhausted. -/
def scanDecCore : Nat → Nat → List Char → Nat × List Char
  | 0, acc, s => (acc, s)
  | _ + 1, acc, [] => (acc, [])
  | w + 1, acc, c :: cs =>
    match decVal c with
    | some d => scanDecCore w (10 * acc + d) cs
    | none => (acc, c :: cs)

/-- The %d conversion of sscanf with a maximum field width: skip whitespace,
an optional sign (counted against the width), then at least one decimal digit;
none on matching failure. -/
def scanDec (width : Nat) (s : List Char) : Option (Int × List Char) :=
  match skipSpaces s with
  | [] => none
  | '-' :: rest =>
    match rest with
    | c :: _ =>
      if (decVal c).isSome ∧ 1 < width then
        match scanDecCore (width - 1) 0 rest with
        | (v, r) => some (-(v : Int), r)
      else none
    | [] => none
  | '+' :: rest =>
    match rest with
    | c :: _ =>
      if (decVal c).isSome ∧ 1 < width then
        match scanDecCore (width - 1) 0 rest with
        | (v, r) => some ((v : Int), r)
      else none
    | [] => none
  | c :: cs =>
    if (decVal c).isSome then
      match scanDecCore width 0 (c :: cs) with
      | (v, r) => some ((v : Int), r)
    else none

/-- Read a maximal run of hexadecimal digits, accumulating their value. -/
def scanHexCore : Nat → List Char → Nat × List Char
  | acc, [] => (acc, [])
  | acc, c :: cs =>
    match hexVal c with
    | some d => scanHexCore (16 * acc + d) cs
    | none => (acc, c :: cs)

/-- The %x conversion of sscanf (unbounded width, value assigned to a 32-bit
unsigned int): skip whitespace, an optional sign, an optional 0x / 0X prefix
when followed by a hex digit, then at least one hex digit; none on matching
failure.  A negative value wraps modulo 2^32 as the store to unsigned does. -/
def scanHex (s : List Char) : Option (Nat × List Char) :=
  let s1 := skipSpaces s
  let signAndRest : Bool × List Char :=
    match s1 with
    | '-' :: r => (true, r)
    | '+' :: r => (false, r)
    | _ => (false, s1)
  match signAndRest with
  | (neg, s2) =>
    let s3 : List Char :=
      match s2 with
      | '0' :: 'x' :: r =>
        if (match r with | c :: _ => (hexVal c).isSome | [] => false) then r
        else s2
      | '0' :: 'X' :: r =>
        if (match r with | c :: _ => (hexVal c).isSome | [] => false) then r
        else s2
      | _ => s2
    match s3 with
    | c :: cs =>
      if (hexVal c).isSome then
        match scanHexCore 0 (c :: cs) with
        | (v, r) =>
          some ((if neg then (2 ^ 32 - v % 2 ^ 32) % 2 ^ 32 else v % 2 ^ 32), r)
      else none
    | [] => none

/-- Match a list of literal characters exactly (the ordinary characters of a
scanf format); returns the rest of the input, or none on mismatch. -/
def matchLit : List Char → List Char → Option (List Char)
  | [], s => some s
  | _ :: _, [] => none
  | c :: cs, d :: ds => if c = d then matchLit cs ds else none

/-- sscanf(name, "pthread%04d__%x", &thrNum, &ptr): both conversions must
succeed (numMatches == 2) for a result; returns (thrNum, ptr) in that case. -/
def scanThreadName (name : List Char) : Option (Int × Nat) :=
  match matchLit ('p' :: 't' :: 'h' :: 'r' :: 'e' :: 'a' :: 'd' :: []) name with
  | none => none
  | some s1 =>
    match scanDec 4 s1 with
    | none => none
    | some (thrNum, s2) =>
      match matchLit ('_' :: '_' :: []) s2 with
      | none => none
      | some s3 =>
        match scanHex s3 with
        | none => none
        | some (ptr, _) => some (thrNum, ptr)

/-- getTlsStructFromThread(thid): reads the kernel thread's current name via
sceKernelReferThreadStatus and parses it with
sscanf(name, "pthread%04d__%x", &thrNum, &ptr).  When both fields parse
(numMatches == 2) the decoded ptr is the TLS table; otherwise the ambient
globalTls is returned.  Tables are identified by their address (a Nat). -/
def getTlsStructFromThread (globalTls : Nat) (name : List Char) : Nat :=
  match scanThreadName name with
  | some (_, ptr) => ptr
  | none => globalTls

theorem pendIter_snd (tdP te : Bool) (tmo : Nat) (env : PendIterEnv) (c : Nat) :
    (pte_osSemaphoreCancellablePendIter tdP te tmo env c).snd = c := by
  unfold pte_osSemaphoreCancellablePendIter
  split_ifs <;> rfl

theorem waitIter_snd (tdP : Bool) (env : WaitIterEnv) (c : Nat) :
    (pte_osThreadWaitForEndIter tdP env c).snd = c := by
  unfold pte_osThreadWaitForEndIter
  split_ifs <;> rfl

theorem pendLoop_zero (tdP te : Bool) (tmo : Nat) (envs : Nat → PendIterEnv)
    (i c : Nat) :
    pte_osSemaphoreCancellablePendLoop tdP te tmo envs i 0 c = (none, c) := rfl

theorem pendLoop_succ (tdP te : Bool) (tmo : Nat) (envs : Nat → PendIterEnv)
    (i f c : Nat) :
    pte_osSemaphoreCancellablePendLoop tdP te tmo envs i (f + 1) c =
      (match pte_osSemaphoreCancellablePendIter tdP te tmo (envs i) c with
       | (PendStep.ret r, c2) => (some r, c2)
       | (PendStep.sleepRepeat, c2) =>
         pte_osSemaphoreCancellablePendLoop tdP te tmo envs (i + 1) f c2
       | (PendStep.repeatNoSleep, c2) =>
         pte_osSemaphoreCancellablePendLoop tdP te tmo envs (i + 1) f c2) := rfl

theorem waitLoop_zero (tdP : Bool) (envs : Nat → WaitIterEnv) (i c : Nat) :
    pte_osThreadWaitForEndLoop tdP envs i 0 c = (none, c) := rfl

theorem waitLoop_succ (tdP : Bool) (envs : Nat → WaitIterEnv) (i f c : Nat) :
    pte_osThreadWaitForEndLoop tdP envs i (f + 1) c =
      (match pte_osThreadWaitForEndIter tdP (envs i) c with
       | (PendStep.ret r, c2) => (some r, c2)
       | (PendStep.sleepRepeat, c2) =>
         pte_osThreadWaitForEndLoop tdP envs (i + 1) f c2
       | (PendStep.repeatNoSleep, c2) =>
         pte_osThreadWaitForEndLoop tdP envs (i + 1) f c2) := rfl

theorem pendLoop_snd (tdP te : Bool) (tmo : Nat) (envs : Nat → PendIterEnv)
    (fuel : Nat) : ∀ (i c : Nat),
    (pte_osSemaphoreCancellablePendLoop tdP te tmo envs i fuel c).snd = c := by
  induction fuel with
  | zero => intro i c; rfl
  | succ f ih =>
    intro i c
    rw [pendLoop_succ]
    have hsnd := pendIter_snd tdP te tmo (envs i) c
    cases hit : pte_osSemaphoreCancellablePendIter tdP te tmo (envs i) c with
    | mk step c2 =>
      rw [hit] at hsnd
      cases step with
      | ret r => simpa using hsnd
      | sleepRepeat =>
        have hc : c2 = c := hsnd
        rw [hc]
        exact ih (i + 1) c
      | repeatNoSleep =>
        have hc : c2 = c := hsnd
        rw [hc]
        exact ih (i + 1) c

theorem waitLoop_snd (tdP : Bool) (envs : Nat → WaitIterEnv) (fuel : Nat) :
    ∀ (i c : Nat),
    (pte_osThreadWaitForEndLoop tdP envs i fuel c).snd = c := by
  induction fuel with
  | zero => intro i c; rfl
  | succ f ih =>
    intro i c
    rw [waitLoop_succ]
    have hsnd := waitIter_snd tdP (envs i) c
    cases hit : pte_osThreadWaitForEndIter tdP (envs i) c with
    | mk step c2 =>
      rw [hit] at hsnd
      cases step with
      | ret r => simpa using hsnd
      | sleepRepeat =>
        have hc : c2 = c := hsnd
        rw [hc]
        exact ih (i + 1) c
      | repeatNoSleep =>
        have hc : c2 = c := hsnd
        rw [hc]
        exact ih (i + 1) c

/-- C1: each iteration of the pte_osSemaphoreCancellablePend loop (calling
thread's control data found, cancellation-semaphore status query succeeding)
proceeds in this order: the zero-timeout semaphore probe returns OK on
success; otherwise, when a timeout was requested and the elapsed time since
the captured start exceeds it, it returns TIMEOUT; otherwise a positive
cancellation count returns INTERRUPTED; otherwise it sleeps for the polling
delay and repeats. -/
theorem cancellablePend_iter_order (timeoutEnabled : Bool) (tmo : Nat)
    (env : PendIterEnv) (c : Nat)
    (h : env.referStatus = SCE_KERNEL_ERROR_OK) :
    pte_osSemaphoreCancellablePendIter true timeoutEnabled tmo env c =
      (if env.semWaitStatus = SCE_KERNEL_ERROR_OK then
         (PendStep.ret PTE_OS_OK, c)
       else if timeoutEnabled = true ∧ tmo < env.elapsed then
         (PendStep.ret PTE_OS_TIMEOUT, c)
       else if 0 < c then (PendStep.ret PTE_OS_INTERRUPTED, c)
       else (PendStep.sleepRepeat, c)) := by
  unfold pte_osSemaphoreCancellablePendIter
  simp [h]

/-- C1 witness: a concrete iteration with an expired timeout returns TIMEOUT. -/
theorem cancellablePend_iter_order_witness :
    pte_osSemaphoreCancellablePendIter true true 5
        (PendIterEnv.mk SCE_KERNEL_ERROR_WAIT_TIMEOUT 10 SCE_KERNEL_ERROR_OK) 0
      = (PendStep.ret PTE_OS_TIMEOUT, 0) := by
  rw [cancellablePend_iter_order true 5
    (PendIterEnv.mk SCE_KERNEL_ERROR_WAIT_TIMEOUT 10 SCE_KERNEL_ERROR_OK) 0 rfl]
  decide

/-- C2: pte_osThreadCheckCancel and the cancellable waits (the iterations and
whole loops of pte_osThreadWaitForEnd and pte_osSemaphoreCancellablePend)
never change the cancellation semaphore count; consequently, after a single
pte_osThreadCancel post from count 0 the count is 1 and every subsequent
CheckCancel, and every cancellable-wait iteration that reaches the
cancellation probe, reports INTERRUPTED while leaving the count unchanged. -/
theorem cancel_signal_never_consumed :
    (∀ (tdP : Bool) (rs : Int) (c : Nat),
        (pte_osThreadCheckCancel tdP rs c).snd = c)
    ∧ (∀ (tdP te : Bool) (tmo : Nat) (env : PendIterEnv) (c : Nat),
        (pte_osSemaphoreCancellablePendIter tdP te tmo env c).snd = c)
    ∧ (∀ (tdP : Bool) (env : WaitIterEnv) (c : Nat),
        (pte_osThreadWaitForEndIter tdP env c).snd = c)
    ∧ (∀ (tdP te : Bool) (tmo : Nat) (envs : Nat → PendIterEnv)
        (i fuel c : Nat),
        (pte_osSemaphoreCancellablePendLoop tdP te tmo envs i fuel c).snd = c)
    ∧ (∀ (tdP : Bool) (envs : Nat → WaitIterEnv) (i fuel c : Nat),
        (pte_osThreadWaitForEndLoop tdP envs i fuel c).snd = c)
    ∧ (∀ c : Nat, 0 < c →
        pte_osThreadCheckCancel true SCE_KERNEL_ERROR_OK c
          = (PTE_OS_INTERRUPTED, c)
        ∧ ∀ env : PendIterEnv, env.semWaitStatus ≠ SCE_KERNEL_ERROR_OK →
            env.referStatus = SCE_KERNEL_ERROR_OK →
            pte_osSemaphoreCancellablePendIter true false 0 env c
              = (PendStep.ret PTE_OS_INTERRUPTED, c))
    ∧ pte_osThreadCancel 0 = (PTE_OS_OK, 1) := by
  refine ⟨?_, pendIter_snd, waitIter_snd, ?_, ?_, ?_, by decide⟩
  · intro tdP rs c
    unfold pte_osThreadCheckCancel
    split_ifs <;> rfl
  · intro tdP te tmo envs i fuel c
    exact pendLoop_snd tdP te tmo envs fuel i c
  · intro tdP envs i fuel c
    exact waitLoop_snd tdP envs fuel i c
  · intro c hc
    constructor
    · unfold pte_osThreadCheckCancel
      simp [hc]
    · intro env h1 h2
      unfold pte_osSemaphoreCancellablePendIter
      simp [h1, h2, hc]

/-- C2 witness: after one cancel post the count is 1, and a CheckCancel and a
cancellable-pend iteration both report INTERRUPTED leaving the count at 1. -/
theorem cancel_signal_never_consumed_witness :
    pte_osThreadCheckCancel true SCE_KERNEL_ERROR_OK 1 = (PTE_OS_INTERRUPTED, 1)
    ∧ pte_osSemaphoreCancellablePendIter true false 0
        (PendIterEnv.mk SCE_KERNEL_ERROR_WAIT_TIMEOUT 0 SCE_KERNEL_ERROR_OK) 1
      = (PendStep.ret PTE_OS_INTERRUPTED, 1) := by
  have h := cancel_signal_never_consumed.2.2.2.2.2.1 1 (by decide)
  exact ⟨h.1, h.2 (PendIterEnv.mk SCE_KERNEL_ERROR_WAIT_TIMEOUT 0
    SCE_KERNEL_ERROR_OK) (by decide) rfl⟩

/-- C7: pte_osAtomicCompareExchange returns the value the location held before
the operation, stores the exchange value exactly when that prior value equals
the comparand (leaving the location unchanged otherwise), and restores the
prior interrupt state before returning. -/
theorem atomicCompareExchange_correct (s : MachineState) (exchange comp : Int) :
    (pte_osAtomicCompareExchange s exchange comp).fst = s.mem
    ∧ (pte_osAtomicCompareExchange s exchange comp).snd.mem =
        (if s.mem = comp then exchange else s.mem)
    ∧ (pte_osAtomicCompareExchange s exchange comp).snd.interruptsOn =
        s.interruptsOn := by
  unfold pte_osAtomicCompareExchange
  by_cases h : s.mem = comp <;> simp [h]

/-- C3 counterexample: when the kernel semaphore creation fails with
SCE_KERNEL_ERROR_NO_MEMORY, pte_osMutexCreate and pte_osSemaphoreCreate still
return PTE_OS_OK (the failed handle is stored), not PTE_OS_NO_RESOURCES. -/
theorem mutexCreate_reports_ok_on_kernel_failure :
    (pte_osMutexCreate SCE_KERNEL_ERROR_NO_MEMORY).fst = PTE_OS_OK
    ∧ (pte_osMutexCreate SCE_KERNEL_ERROR_NO_MEMORY).fst ≠ PTE_OS_NO_RESOURCES
    ∧ (pte_osSemaphoreCreate SCE_KERNEL_ERROR_NO_MEMORY).fst = PTE_OS_OK
    ∧ (pte_osSemaphoreCreate SCE_KERNEL_ERROR_NO_MEMORY).fst
        ≠ PTE_OS_NO_RESOURCES := by
  decide

/-- C3 amended: the failure taxonomy holds for the other fallible primitives
(SemaphorePend maps kernel success to OK, kernel timeout to TIMEOUT and any
other kernel failure to GENERAL_FAILURE; ThreadCreate maps heap or TLS
allocation failure and kernel out-of-memory to NO_RESOURCES, any other kernel
failure to GENERAL_FAILURE and success to OK; Init maps heap allocation
failure to NO_RESOURCES; CheckCancel maps an observed non-zero cancellation
signal to INTERRUPTED), but MutexCreate and SemaphoreCreate never inspect the
kernel result and return PTE_OS_OK unconditionally. -/
theorem error_taxonomy_amended :
    (∀ h : Int, (pte_osMutexCreate h).fst = PTE_OS_OK
        ∧ (pte_osSemaphoreCreate h).fst = PTE_OS_OK)
    ∧ pte_osSemaphorePend SCE_KERNEL_ERROR_OK = PTE_OS_OK
    ∧ pte_osSemaphorePend SCE_KERNEL_ERROR_WAIT_TIMEOUT = PTE_OS_TIMEOUT
    ∧ (∀ st : Int, st ≠ SCE_KERNEL_ERROR_OK →
        st ≠ SCE_KERNEL_ERROR_WAIT_TIMEOUT →
        pte_osSemaphorePend st = PTE_OS_GENERAL_FAILURE)
    ∧ (∀ (ss : Int) (mOk : Bool) (tid : Int),
        (pte_osThreadCreate ss false mOk tid).result = PTE_OS_NO_RESOURCES)
    ∧ (∀ (ss tid : Int),
        (pte_osThreadCreate ss true false tid).result = PTE_OS_NO_RESOURCES)
    ∧ (∀ ss : Int,
        (pte_osThreadCreate ss true true SCE_KERNEL_ERROR_NO_MEMORY).result
          = PTE_OS_NO_RESOURCES)
    ∧ (∀ (ss tid : Int), tid < 0 → tid ≠ SCE_KERNEL_ERROR_NO_MEMORY →
        (pte_osThreadCreate ss true true tid).result = PTE_OS_GENERAL_FAILURE)
    ∧ (∀ (ss tid : Int), 0 ≤ tid →
        (pte_osThreadCreate ss true true tid).result = PTE_OS_OK)
    ∧ (∀ (tnull : Bool) (csr : Int),
        (pte_osInit PTE_OS_OK PTE_OS_OK tnull false csr).result
          = PTE_OS_NO_RESOURCES)
    ∧ (∀ c : Nat, 0 < c →
        (pte_osThreadCheckCancel true SCE_KERNEL_ERROR_OK c).fst
          = PTE_OS_INTERRUPTED) := by
  refine ⟨?_, rfl, by decide, ?_, ?_, ?_, ?_, ?_, ?_, ?_, ?_⟩
  · intro h; exact ⟨rfl, rfl⟩
  · intro st h1 h2
    unfold pte_osSemaphorePend
    simp [h1, h2]
  · intro ss mOk tid
    rfl
  · intro ss tid
    rfl
  · intro ss
    simp [pte_osThreadCreate]
  · intro ss tid h1 h2
    simp [pte_osThreadCreate, h1, h2]
  · intro ss tid h0
    have hnm : SCE_KERNEL_ERROR_NO_MEMORY < 0 := by decide
    have h1 : ¬ tid = SCE_KERNEL_ERROR_NO_MEMORY := by omega
    have h2 : ¬ tid < 0 := by omega
    simp [pte_osThreadCreate, h1, h2]
  · intro tnull csr
    rfl
  · intro c hc
    unfold pte_osThreadCheckCancel
    simp [hc]

/-- C3 amended witness: concrete instances of the amended taxonomy. -/
theorem error_taxonomy_amended_witness :
    pte_osSemaphorePend (-1) = PTE_OS_GENERAL_FAILURE
    ∧ (pte_osThreadCreate 4096 true true (-3)).result = PTE_OS_GENERAL_FAILURE
    ∧ (pte_osThreadCreate 4096 true true 77).result = PTE_OS_OK
    ∧ (pte_osThreadCheckCancel true SCE_KERNEL_ERROR_OK 1).fst
        = PTE_OS_INTERRUPTED := by
  refine ⟨?_, ?_, ?_, ?_⟩
  · exact error_taxonomy_amended.2.2.2.1 (-1) (by decide) (by decide)
  · exact error_taxonomy_amended.2.2.2.2.2.2.2.1 4096 (-3) (by decide)
      (by decide)
  · exact error_taxonomy_amended.2.2.2.2.2.2.2.2.1 4096 77 (by decide)
  · exact error_taxonomy_amended.2.2.2.2.2.2.2.2.2.2 1 (by decide)

/-- C4: when pte_osThreadCreate reaches the kernel thread-creation step (TLS
table and control block both allocated) and that step fails (negative
threadId), the TLS table is destroyed and the control block freed before
returning, no thread handle is produced, and the result is PTE_OS_NO_RESOURCES
for SCE_KERNEL_ERROR_NO_MEMORY and PTE_OS_GENERAL_FAILURE for any other
kernel failure. -/
theorem threadCreate_failure_cleanup (ss tid : Int) (h : tid < 0) :
    (pte_osThreadCreate ss true true tid).handle = none
    ∧ (pte_osThreadCreate ss true true tid).tlsDestroyed = true
    ∧ (pte_osThreadCreate ss true true tid).threadDataFreed = true
    ∧ (pte_osThreadCreate ss true true tid).result =
        (if tid = SCE_KERNEL_ERROR_NO_MEMORY then PTE_OS_NO_RESOURCES
         else PTE_OS_GENERAL_FAILURE) := by
  by_cases hm : tid = SCE_KERNEL_ERROR_NO_MEMORY <;>
    simp [pte_osThreadCreate, hm, h]

/-- C4 witness: kernel out-of-memory yields NO_RESOURCES, no handle, and both
releases; another kernel error yields GENERAL_FAILURE. -/
theorem threadCreate_failure_cleanup_witness :
    (pte_osThreadCreate 0 true true SCE_KERNEL_ERROR_NO_MEMORY).handle = none
    ∧ (pte_osThreadCreate 0 true true SCE_KERNEL_ERROR_NO_MEMORY).result
        = PTE_OS_NO_RESOURCES
    ∧ (pte_osThreadCreate 0 true true (-2)).result = PTE_OS_GENERAL_FAILURE := by
  have h1 := threadCreate_failure_cleanup 0 SCE_KERNEL_ERROR_NO_MEMORY
    (by decide)
  have h2 := threadCreate_failure_cleanup 0 (-2) (by decide)
  refine ⟨h1.1, ?_, ?_⟩
  · rw [h1.2.2.2]; decide
  · rw [h2.2.2.2]; decide

/-- C5: pte_osMutexTimedLock reports every non-success (negative) kernel wait
result as TIMEOUT and only a successful kernel wait as OK; it never returns
any status other than OK and TIMEOUT. -/
theorem mutexTimedLock_conflates_errors_with_timeout (st : Int) :
    (pte_osMutexTimedLock st = PTE_OS_OK
      ∨ pte_osMutexTimedLock st = PTE_OS_TIMEOUT)
    ∧ pte_osMutexTimedLock st ≠ PTE_OS_GENERAL_FAILURE
    ∧ pte_osMutexTimedLock st ≠ PTE_OS_NO_RESOURCES
    ∧ pte_osMutexTimedLock st ≠ PTE_OS_INTERRUPTED
    ∧ (st < 0 → pte_osMutexTimedLock st = PTE_OS_TIMEOUT)
    ∧ (st ≤ 0 →
        (pte_osMutexTimedLock st = PTE_OS_OK ↔ st = SCE_KERNEL_ERROR_OK)) := by
  unfold pte_osMutexTimedLock SCE_KERNEL_ERROR_OK
  by_cases h : st < 0 <;> simp [h] <;> omega

/-- C5 witness: a kernel timeout maps to TIMEOUT, kernel success to OK. -/
theorem mutexTimedLock_conflates_errors_with_timeout_witness :
    pte_osMutexTimedLock SCE_KERNEL_ERROR_WAIT_TIMEOUT = PTE_OS_TIMEOUT
    ∧ pte_osMutexTimedLock SCE_KERNEL_ERROR_OK = PTE_OS_OK := by
  constructor
  · exact (mutexTimedLock_conflates_errors_with_timeout
      SCE_KERNEL_ERROR_WAIT_TIMEOUT).2.2.2.2.1 (by decide)
  · exact ((mutexTimedLock_conflates_errors_with_timeout
      SCE_KERNEL_ERROR_OK).2.2.2.2.2 (by decide)).mpr rfl

/-- C8: when pte_osThreadCreate fails at the kernel thread-creation step, the
cancellation semaphore created earlier in the same call is not destroyed: the
control block and TLS table are released, the semaphore-delete kernel call is
never made, and no thread handle is produced. -/
theorem threadCreate_failure_leaks_cancelSem (ss tid : Int) (h : tid < 0) :
    (pte_osThreadCreate ss true true tid).cancelSemCreateCalled = true
    ∧ (pte_osThreadCreate ss true true tid).cancelSemDeleteCalled = false
    ∧ (pte_osThreadCreate ss true true tid).tlsDestroyed = true
    ∧ (pte_osThreadCreate ss true true tid).threadDataFreed = true
    ∧ (pte_osThreadCreate ss true true tid).handle = none
    ∧ (pte_osThreadCreate ss true true tid).result ≠ PTE_OS_OK := by
  by_cases hm : tid = SCE_KERNEL_ERROR_NO_MEMORY <;>
    simp [pte_osThreadCreate, hm, h]

/-- C8 witness: a concrete failed creation creates but never deletes the
cancellation semaphore. -/
theorem threadCreate_failure_leaks_cancelSem_witness :
    (pte_osThreadCreate 4096 true true (-5)).cancelSemCreateCalled = true
    ∧ (pte_osThreadCreate 4096 true true (-5)).cancelSemDeleteCalled = false := by
  have h := threadCreate_failure_leaks_cancelSem 4096 (-5) (by decide)
  exact ⟨h.1, h.2.1⟩

/-- C6: getTlsStructFromThread parses the thread's name against the fixed
pattern "pthread%04d__%x"; exactly when both conversions succeed the decoded
address is used as the TLS table, and on any parse failure the ambient/global
table is returned.  Concrete instances: a well-formed name decodes to its
embedded address, a short decimal field still parses, a non-matching name and
a name whose hex field fails both fall back to the ambient table. -/
theorem tlsResolve_parse_dichotomy :
    (∀ (globalTls : Nat) (name : List Char) (n : Int) (p : Nat),
        scanThreadName name = some (n, p) →
        getTlsStructFromThread globalTls name = p)
    ∧ (∀ (globalTls : Nat) (name : List Char),
        scanThreadName name = none →
        getTlsStructFromThread globalTls name = globalTls)
    ∧ scanThreadName ("pthread0002__8abcd40".toList) = some (2, 0x8abcd40)
    ∧ scanThreadName ("pthread12__8".toList) = some (12, 8)
    ∧ scanThreadName ("user_main".toList) = none
    ∧ scanThreadName ("pthread0002__zz".toList) = none := by
  refine ⟨?_, ?_, by decide, by decide, by decide, by decide⟩
  · intro g name n p h
    unfold getTlsStructFromThread
    rw [h]
  · intro g name h
    unfold getTlsStructFromThread
    rw [h]

/-- C6 witness: resolution of a well-formed and of a non-matching name. -/
theorem tlsResolve_parse_dichotomy_witness :
    getTlsStructFromThread 777 ("pthread0002__8abcd40".toList) = 0x8abcd40
    ∧ getTlsStructFromThread 777 ("user_main".toList) = 777 := by
  constructor
  · exact tlsResolve_parse_dichotomy.1 777 ("pthread0002__8abcd40".toList) 2
      0x8abcd40 (by decide)
  · exact tlsResolve_parse_dichotomy.2.1 777 ("user_main".toList) (by decide)

/-- C9: with no control block for the calling thread (getThreadData NULL),
every iteration of pte_osThreadWaitForEnd skips the cancellation probe, the
error branch and the polling-delay sleep (busy spin), so WaitForEnd can only
ever return OK; and an untimed pte_osSemaphoreCancellablePend on a semaphore
whose zero-timeout probe never succeeds never returns, for any number of
iterations. -/
theorem null_threadData_skips_cancel_and_sleep :
    (∀ (env : WaitIterEnv) (c : Nat),
        pte_osThreadWaitForEndIter false env c =
          ((if env.threadStopped then PendStep.ret PTE_OS_OK
            else PendStep.repeatNoSleep), c))
    ∧ (∀ (envs : Nat → WaitIterEnv) (fuel i c : Nat) (r : pte_osResult),
        (pte_osThreadWaitForEndLoop false envs i fuel c).fst = some r →
        r = PTE_OS_OK)
    ∧ (∀ (te : Bool) (tmo : Nat) (env : PendIterEnv) (c : Nat),
        env.semWaitStatus ≠ SCE_KERNEL_ERROR_OK →
        ¬(te = true ∧ tmo < env.elapsed) →
        pte_osSemaphoreCancellablePendIter false te tmo env c
          = (PendStep.repeatNoSleep, c))
    ∧ (∀ (envs : Nat → PendIterEnv),
        (∀ n, (envs n).semWaitStatus ≠ SCE_KERNEL_ERROR_OK) →
        ∀ (fuel c : Nat),
          (pte_osSemaphoreCancellablePend false none envs fuel c).fst
            = none) := by
  have hWaitIter : ∀ (env : WaitIterEnv) (c : Nat),
      pte_osThreadWaitForEndIter false env c =
        ((if env.threadStopped then PendStep.ret PTE_OS_OK
          else PendStep.repeatNoSleep), c) := by
    intro env c
    unfold pte_osThreadWaitForEndIter
    by_cases h : env.threadStopped <;> simp [h]
  have hPendIter : ∀ (te : Bool) (tmo : Nat) (env : PendIterEnv) (c : Nat),
      env.semWaitStatus ≠ SCE_KERNEL_ERROR_OK →
      ¬(te = true ∧ tmo < env.elapsed) →
      pte_osSemaphoreCancellablePendIter false te tmo env c
        = (PendStep.repeatNoSleep, c) := by
    intro te tmo env c h1 h2
    unfold pte_osSemaphoreCancellablePendIter
    simp [h1, h2]
  refine ⟨hWaitIter, ?_, hPendIter, ?_⟩
  · intro envs fuel
    induction fuel with
    | zero =>
      intro i c r h
      simp [waitLoop_zero] at h
    | succ f ih =>
      intro i c r h
      rw [waitLoop_succ, hWaitIter (envs i) c] at h
      by_cases hs : (envs i).threadStopped
      · simp [hs] at h
        exact h.symm
      · simp only [hs, if_false] at h
        exact ih (i + 1) c r h
  · intro envs hne
    have aux : ∀ (fuel i c : Nat),
        (pte_osSemaphoreCancellablePendLoop false false 0 envs i fuel c).fst
          = none := by
      intro fuel
      induction fuel with
      | zero => intro i c; rfl
      | succ f ih =>
        intro i c
        rw [pendLoop_succ, hPendIter false 0 (envs i) c (hne i) (by simp)]
        exact ih (i + 1) c
    intro fuel c
    have hw : pte_osSemaphoreCancellablePend false none envs fuel c
        = pte_osSemaphoreCancellablePendLoop false false 0 envs 0 fuel c := rfl
    rw [hw]
    exact aux fuel 0 c

/-- C9 witness: a concrete iteration with no control block busy-spins, and a
concrete untimed pend on a never-posted semaphore has not returned after four
iterations. -/
theorem null_threadData_skips_cancel_and_sleep_witness :
    pte_osThreadWaitForEndIter false (WaitIterEnv.mk false 0) 7
      = (PendStep.repeatNoSleep, 7)
    ∧ (pte_osSemaphoreCancellablePend false none
        (fun _ => PendIterEnv.mk SCE_KERNEL_ERROR_WAIT_TIMEOUT 0
          SCE_KERNEL_ERROR_OK) 4 0).fst = none := by
  constructor
  · rw [null_threadData_skips_cancel_and_sleep.1 (WaitIterEnv.mk false 0) 7]
    rfl
  · exact null_threadData_skips_cancel_and_sleep.2.2.2
      (fun _ => PendIterEnv.mk SCE_KERNEL_ERROR_WAIT_TIMEOUT 0
        SCE_KERNEL_ERROR_OK)
      (fun _ => by
        show SCE_KERNEL_ERROR_WAIT_TIMEOUT ≠ SCE_KERNEL_ERROR_OK
        decide) 4 0

/-- C10: pte_osInit returns PTE_OS_OK whenever TLS global init, the key
allocation and the control-block heap allocation all succeed, regardless of
whether the ambient TLS table came back NULL or the kernel creation of the
cancellation semaphore failed (neither is checked and neither influences the
result); any non-OK result comes from one of the first three steps. -/
theorem init_ignores_cancelSem_and_globalTls (g a : pte_osResult)
    (tnull mOk : Bool) (csr : Int) :
    (g = PTE_OS_OK → a = PTE_OS_OK → mOk = true →
      (pte_osInit g a tnull mOk csr).result = PTE_OS_OK)
    ∧ (∀ (tnull2 : Bool) (csr2 : Int),
        (pte_osInit g a tnull mOk csr).result =
          (pte_osInit g a tnull2 mOk csr2).result)
    ∧ ((pte_osInit g a tnull mOk csr).result ≠ PTE_OS_OK →
        ((pte_osInit g a tnull mOk csr).result = g ∧ g ≠ PTE_OS_OK)
        ∨ ((pte_osInit g a tnull mOk csr).result = a ∧ a ≠ PTE_OS_OK)
        ∨ ((pte_osInit g a tnull mOk csr).result = PTE_OS_NO_RESOURCES
            ∧ mOk = false)) := by
  unfold pte_osInit
  by_cases hg : g = PTE_OS_OK <;> by_cases ha : a = PTE_OS_OK <;> cases mOk <;>
    simp [hg, ha]

/-- C10 witness: with a failed cancellation-semaphore creation stored and a
NULL ambient TLS table, pte_osInit still returns PTE_OS_OK. -/
theorem init_ignores_cancelSem_and_globalTls_witness :
    (pte_osInit PTE_OS_OK PTE_OS_OK true true
        SCE_KERNEL_ERROR_NO_MEMORY).result = PTE_OS_OK :=
  (init_ignores_cancelSem_and_globalTls PTE_OS_OK PTE_OS_OK true true
      SCE_KERNEL_ERROR_NO_MEMORY).1 rfl rfl rfl
